import Mathlib

/-!
Shallow embedding of the interactive card carousel of the portfolio repository
(`InteractiveCards`), contact form (`ContactForm`) and custom cursor widget
(`CustomCursor`), together with proofs of the specified properties.

Conventions of the embedding:
* JavaScript's `%` operator is the truncated remainder (sign of the dividend);
  it is embedded as `jsMod := Int.tmod`.  All dividends produced by the
  carousel code are nonnegative, where `tmod` agrees with Lean's `emod`.
* The carousel component keeps two `useState` cells, `activeIndex : number`
  (initial `0`) and `direction : number` (initial `0`; the comments in the
  source fix the encoding `1` = forward/next, `-1` = backward/previous,
  `0` = none).
  They are embedded as the record `CarouselState`.
* `navigate(path)` calls from `react-router-dom` are embedded as an emitted
  navigation signal `Option String` (`some path` = exactly one navigation
  signal to `path`, `none` = no navigation signal).
* The deck `cardData` is fixed in the source; the index arithmetic is stated
  over an arbitrary deck length `N` (the source instantiates
  `N = cardData.length = 5`).
-/

/-- JavaScript `%`: truncated remainder, the sign follows the dividend. -/
def jsMod (a b : Int) : Int := Int.tmod a b

/-- The `type` field of `CardDataItem`: one of `profile`, `about`,
`projects`, `certificates`, `tech-stack`, `contact`. -/
inductive Category where
  | profile
  | about
  | projects
  | certificates
  | techStack
  | contact
  deriving Repr, DecidableEq

/-- `CardDataItem`: one entry of the card deck (id, title, content, type,
link, optional icon name). -/
structure CardDataItem where
  id : Int
  title : String
  content : String
  type : Category
  link : String
  icon : Option String
  deriving Repr, DecidableEq

instance : Inhabited CardDataItem :=
  ⟨{ id := 0, title := "", content := "", type := .profile, link := "", icon := none }⟩

/-- The `cardData` array of `InteractiveCards` (the commented-out Contact
entry is absent, as in the source). -/
def cardData : List CardDataItem :=
  [ { id := 1, title := "Profile", content := "", type := .profile,
      link := "/", icon := some "User" },
    { id := 2, title := "About Me",
      content := "Learn more about my background and skills.", type := .about,
      link := "/about", icon := some "User" },
    { id := 3, title := "Projects",
      content := "Explore the projects I have worked on.", type := .projects,
      link := "/projects", icon := some "FolderGit2" },
    { id := 4, title := "Certificates",
      content := "View my certifications and qualifications.",
      type := .certificates, link := "/certificates", icon := some "Award" },
    { id := 5, title := "Tech Stack",
      content := "Discover the technologies I use.", type := .techStack,
      link := "/tech-stack", icon := some "Layers" } ]

/-- The two `useState` cells of `InteractiveCards`:
`activeIndex` (initially `0`) and `direction` (initially `0`). -/
structure CarouselState where
  activeIndex : Int
  direction : Int
  deriving Repr, DecidableEq

/-- The state right after mount: `useState<number>(0)` twice. -/
def initialState : CarouselState := { activeIndex := 0, direction := 0 }

/-- `handleNavigation(newIndex)`:
`setDirection(newIndex > activeIndex ? 1 : (newIndex < activeIndex ? -1 : 0))`
then `setActiveIndex(newIndex)`. -/
def handleNavigation (s : CarouselState) (newIndex : Int) : CarouselState :=
  { direction :=
      if newIndex > s.activeIndex then 1
      else if newIndex < s.activeIndex then -1
      else 0,
    activeIndex := newIndex }

/-- `goToNext()`: `handleNavigation((activeIndex + 1) % cardData.length)`,
with `cardData.length` generalised to `N`. -/
def goToNext (N : Int) (s : CarouselState) : CarouselState :=
  handleNavigation s (jsMod (s.activeIndex + 1) N)

/-- `goToPrev()`:
`handleNavigation((activeIndex - 1 + cardData.length) % cardData.length)`,
with `cardData.length` generalised to `N`. -/
def goToPrev (N : Int) (s : CarouselState) : CarouselState :=
  handleNavigation s (jsMod (s.activeIndex - 1 + N) N)

/-- `const prevIndex = (activeIndex - 1 + cardData.length) % cardData.length`. -/
def prevIndex (N : Int) (s : CarouselState) : Int :=
  jsMod (s.activeIndex - 1 + N) N

/-- `const nextIndex = (activeIndex + 1) % cardData.length`. -/
def nextIndex (N : Int) (s : CarouselState) : Int :=
  jsMod (s.activeIndex + 1) N

/-- A user gesture on the desktop arrows: the `onClick` of the right arrow
is `goToNext`, that of the left arrow is `goToPrev`. -/
inductive ArrowOp where
  | next
  | prev
  deriving Repr, DecidableEq

/-- Running a sequence of arrow presses on the carousel. -/
def runOps (N : Int) (ops : List ArrowOp) (s : CarouselState) : CarouselState :=
  ops.foldl
    (fun t op =>
      match op with
      | .next => goToNext N t
      | .prev => goToPrev N t)
    s

/-- `cardData[index]` (deck lookup at a carousel index). -/
def cardAt (deck : List CardDataItem) (index : Int) : CardDataItem :=
  deck.getD index.toNat default

/-- The desktop card `onClick`:
`if (index !== activeIndex) handleNavigation(index);`
`else if (card.type !== 'profile') navigate(card.link);`
Returns the new state and the emitted navigation signal. -/
def desktopCardClick (deck : List CardDataItem) (s : CarouselState)
    (index : Int) : CarouselState × Option String :=
  if index ≠ s.activeIndex then (handleNavigation s index, none)
  else if (cardAt deck index).type ≠ .profile then (s, some (cardAt deck index).link)
  else (s, none)

/-- The mobile card `onClick`: `navigate(card.link)`, unconditionally. -/
def mobileCardClick (deck : List CardDataItem) (s : CarouselState)
    (index : Int) : CarouselState × Option String :=
  (s, some (cardAt deck index).link)

/-- The desktop card list inside `AnimatePresence`:
`[prevIndex, activeIndex, nextIndex].map((index) => ...)`. -/
def desktopMountedIndices (N : Int) (s : CarouselState) : List Int :=
  [prevIndex N s, s.activeIndex, nextIndex N s]

/-- The cards the desktop renderer mounts: the mounted index list mapped
through the deck lookup (`const card = cardData[index]`). -/
def desktopMountedCards (deck : List CardDataItem) (s : CarouselState) :
    List CardDataItem :=
  (desktopMountedIndices (deck.length : Int) s).map (cardAt deck)

/-- The neighbor query of the spec: the pair
`(previousIndex, nextIndex)` as computed by the two consts of the source. -/
def neighbors (N : Int) (s : CarouselState) : Int × Int :=
  (prevIndex N s, nextIndex N s)

/-! ### Contact form (`ContactForm`) -/

/-- The `formData` and `isSubmitting` `useState` cells of `ContactForm`. -/
structure ContactFormState where
  name : String
  email : String
  message : String
  isSubmitting : Bool
  deriving Repr, DecidableEq

/-- Initial form state:
`useState({ name: '', email: '', message: '' })` and `useState(false)`. -/
def initialFormState : ContactFormState :=
  { name := "", email := "", message := "", isSubmitting := false }

/-- Observable side effects of `handleSubmit`, in order.  The constructor
`serverRequest` exists so that the absence of any server call is a statement
about the effect trace; `handleSubmit` never emits it. -/
inductive FormEffect where
  | delayMs (ms : Nat)
  | consoleLog (label : String)
  | toastSuccess (message : String)
  | serverRequest (url : String)
  deriving Repr, DecidableEq

/-- Whether an effect is a success notification (`toast.success`). -/
def FormEffect.isSuccessToast : FormEffect → Bool
  | .toastSuccess _ => true
  | _ => false

/-- Whether an effect is an outgoing server request. -/
def FormEffect.isServerRequest : FormEffect → Bool
  | .serverRequest _ => true
  | _ => false

/-- `handleSubmit` of `ContactForm`, run to completion of the simulated
latency: `setIsSubmitting(true)`; `await` a 1000 ms timeout;
`console.log(...)`; `toast.success('Message sent successfully!', ...)`;
`setFormData({ name: '', email: '', message: '' })`;
`setIsSubmitting(false)`.  Returns the final state and the effect trace. -/
def handleSubmit (s : ContactFormState) : ContactFormState × List FormEffect :=
  let s1 := { s with isSubmitting := true }
  let s2 := { s1 with name := "", email := "", message := "" }
  let s3 := { s2 with isSubmitting := false }
  (s3, [FormEffect.delayMs 1000,
        FormEffect.consoleLog "Form Data Submitted:",
        FormEffect.toastSuccess "Message sent successfully!"])

/-! ### Custom cursor widget (`CustomCursor`) -/

/-- A registered document-level event listener: the target
(`document` or `body`), the event name, and an identifier for the handler
closure (each effect run creates fresh handler closures). -/
structure DocListener where
  target : String
  event : String
  handlerId : Nat
  deriving Repr, DecidableEq

/-- The document-level state the cursor widget touches: the
`document.body.style.cursor` property and the set of registered
document-level listeners.  The widget modifies nothing else at document
level. -/
structure DocumentState where
  cursor : String
  listeners : List DocListener
  deriving Repr, DecidableEq

/-- The mount half of the `useEffect` of `CustomCursor`:
`document.addEventListener('mousemove', handleMouseMove)`;
`document.body.addEventListener('mouseenter', handleMouseEnter)`;
`document.body.addEventListener('mouseleave', handleMouseLeave)`;
`document.body.style.cursor = 'none'`.
`h1 h2 h3` identify the three handler closures created by this run. -/
def cursorEffectMount (h1 h2 h3 : Nat) (d : DocumentState) : DocumentState :=
  { cursor := "none",
    listeners := d.listeners ++
      [⟨"document", "mousemove", h1⟩,
       ⟨"body", "mouseenter", h2⟩,
       ⟨"body", "mouseleave", h3⟩] }

/-- The cleanup half of the `useEffect` of `CustomCursor`:
removes the same three listeners and sets
`document.body.style.cursor = 'auto'`. -/
def cursorEffectCleanup (h1 h2 h3 : Nat) (d : DocumentState) : DocumentState :=
  { cursor := "auto",
    listeners :=
      ((d.listeners.erase ⟨"document", "mousemove", h1⟩).erase
        ⟨"body", "mouseenter", h2⟩).erase ⟨"body", "mouseleave", h3⟩ }

/-! ### Helper lemmas about `jsMod` -/

/-- On a nonnegative dividend and nonnegative divisor, JavaScript `%`
agrees with Lean's euclidean `%`. -/
theorem jsMod_eq_emod {a b : Int} (ha : 0 ≤ a) (hb : 0 ≤ b) :
    jsMod a b = a % b := Int.tmod_eq_emod ha hb

/-- `goToNext` and `goToPrev` land in `[0, N)` from any in-range state. -/
theorem step_mem_range {N : Int} (hN : 1 ≤ N) {s : CarouselState}
    (hs : 0 ≤ s.activeIndex) :
    (0 ≤ (goToNext N s).activeIndex ∧ (goToNext N s).activeIndex < N) ∧
    (0 ≤ (goToPrev N s).activeIndex ∧ (goToPrev N s).activeIndex < N) := by
  have h1 : (goToNext N s).activeIndex = (s.activeIndex + 1) % N := by
    show jsMod (s.activeIndex + 1) N = _
    exact jsMod_eq_emod (by omega) (by omega)
  have h2 : (goToPrev N s).activeIndex = (s.activeIndex - 1 + N) % N := by
    show jsMod (s.activeIndex - 1 + N) N = _
    exact jsMod_eq_emod (by omega) (by omega)
  rw [h1, h2]
  have hNz : N ≠ 0 := by omega
  have hNp : 0 < N := by omega
  exact ⟨⟨Int.emod_nonneg _ hNz, Int.emod_lt_of_pos _ hNp⟩,
         ⟨Int.emod_nonneg _ hNz, Int.emod_lt_of_pos _ hNp⟩⟩

/-- C1 (invariant): running any arrow sequence from an in-range state keeps
`activeIndex` in `[0, N)`. -/
theorem runOps_mem_range {N : Int} (hN : 1 ≤ N) (ops : List ArrowOp)
    {s : CarouselState} (hlo : 0 ≤ s.activeIndex) (hhi : s.activeIndex < N) :
    0 ≤ (runOps N ops s).activeIndex ∧ (runOps N ops s).activeIndex < N := by
  induction ops generalizing s with
  | nil => exact ⟨hlo, hhi⟩
  | cons op rest ih =>
    cases op with
    | next =>
      have h := (step_mem_range hN hlo).1
      exact ih h.1 h.2
    | prev =>
      have h := (step_mem_range hN hlo).2
      exact ih h.1 h.2

/-- C1: starting from the initial state (`activeIndex = 0`), for every deck
length `N ≥ 1` and every sequence of `advance()`/`retreat()`
(`goToNext`/`goToPrev`) calls, `activeIndex` stays within `[0, N)`, so it
always indexes a valid deck entry. -/
theorem carousel_activeIndex_in_range (N : Int) (hN : 1 ≤ N)
    (ops : List ArrowOp) :
    0 ≤ (runOps N ops initialState).activeIndex ∧
      (runOps N ops initialState).activeIndex < N :=
  runOps_mem_range hN ops (by simp [initialState]) (by simp [initialState]; omega)

/-- Witness for C1: the deck of the source (`N = 5`) and a concrete
three-press sequence. -/
theorem carousel_activeIndex_in_range_witness :
    0 ≤ (runOps 5 [.next, .prev, .prev] initialState).activeIndex ∧
      (runOps 5 [.next, .prev, .prev] initialState).activeIndex < 5 :=
  carousel_activeIndex_in_range 5 (by decide) [.next, .prev, .prev]

/-- `(i + 1) % N` in closed form on the range `[0, N)`. -/
theorem emod_add_one_eq {N i : Int} (hlo : 0 ≤ i) (hhi : i < N) :
    (i + 1) % N = if i = N - 1 then 0 else i + 1 := by
  by_cases h : i = N - 1
  · rw [if_pos h, h]
    have hs : N - 1 + 1 = N := by omega
    rw [hs, Int.emod_self]
  · rw [if_neg h]
    exact Int.emod_eq_of_lt (by omega) (by omega)

/-- `(i - 1 + N) % N` in closed form on the range `[0, N)`. -/
theorem emod_sub_one_add_eq {N i : Int} (hlo : 0 ≤ i) (hhi : i < N) :
    (i - 1 + N) % N = if i = 0 then N - 1 else i - 1 := by
  by_cases h : i = 0
  · rw [if_pos h, h]
    have hs : (0 : Int) - 1 + N = N - 1 := by omega
    rw [hs]
    exact Int.emod_eq_of_lt (by omega) (by omega)
  · rw [if_neg h]
    have hs : i - 1 + N = (i - 1) + N * 1 := by ring
    rw [hs, Int.add_mul_emod_self_left]
    exact Int.emod_eq_of_lt (by omega) (by omega)

/-- C2: clicking the desktop center card (`activate(activeIndex)`) is a
no-op (state unchanged, no navigation signal) when the active card has
category `profile`; otherwise it emits exactly one navigation signal to the
link of the active card and leaves `CarouselState` unchanged. -/
theorem desktop_activate_center (deck : List CardDataItem) (s : CarouselState) :
    ((cardAt deck s.activeIndex).type = Category.profile →
      desktopCardClick deck s s.activeIndex = (s, none)) ∧
    ((cardAt deck s.activeIndex).type ≠ Category.profile →
      desktopCardClick deck s s.activeIndex =
        (s, some (cardAt deck s.activeIndex).link)) := by
  constructor <;> intro h <;> simp [desktopCardClick, h]

/-- Witness for C2: the profile card at index 0 (no-op) and the About card
at index 1 (one signal to its link). -/
theorem desktop_activate_center_witness :
    (cardAt cardData initialState.activeIndex).type = Category.profile ∧
    desktopCardClick cardData initialState initialState.activeIndex =
      (initialState, none) ∧
    (cardAt cardData (1 : Int)).type ≠ Category.profile ∧
    desktopCardClick cardData { activeIndex := 1, direction := 0 } 1 =
      ({ activeIndex := 1, direction := 0 }, some (cardAt cardData (1 : Int)).link) :=
  ⟨by decide,
   (desktop_activate_center cardData initialState).1 (by decide),
   by decide,
   (desktop_activate_center cardData { activeIndex := 1, direction := 0 }).2 (by decide)⟩

/-- C3 counterexample: `retreat()` from `activeIndex = 0` with `N = 5` does
not yield `direction = -1` (backward); the code compares the wrapped target
`4` with the pre-update index `0` and sets `direction = 1` (forward). -/
theorem retreat_from_zero_counterexample :
    goToPrev 5 initialState ≠ { activeIndex := 4, direction := -1 } := by
  decide

/-- C3 (amended): `retreat()` from `activeIndex = 0` with `N = 5` yields
`activeIndex = 4` and `direction = 1` (forward), because the wrapped target
index `4` is greater than the pre-update `activeIndex` `0`. -/
theorem retreat_from_zero :
    goToPrev 5 initialState = { activeIndex := 4, direction := 1 } := by
  decide

/-- C4 counterexample: in compact (mobile) mode, tapping the item at index
`2` from the initial state does not re-center the carousel with no
navigation signal; the mobile `onClick` navigates unconditionally. -/
theorem mobile_tap_counterexample :
    mobileCardClick cardData initialState 2 ≠
      (handleNavigation initialState 2, none) := by
  decide

/-- C4 (amended): in compact (mobile) mode, tapping any rendered item with
valid index `k` emits exactly one navigation signal, to the link of that
item, and leaves `CarouselState` (`activeIndex` and `direction`) unchanged;
no re-centering happens. -/
theorem mobile_tap_navigates (deck : List CardDataItem) (s : CarouselState)
    (k : Nat) (hk : k < deck.length) :
    mobileCardClick deck s (k : Int) = (s, some (deck.get ⟨k, hk⟩).link) := by
  simp [mobileCardClick, cardAt, List.getD_eq_getElem?_getD,
    List.getElem?_eq_getElem hk, List.get_eq_getElem]

/-- Witness for C4: tapping index 1 (About) from the initial state emits a
single navigation signal to the About link and keeps the state. -/
theorem mobile_tap_navigates_witness :
    (1 : Nat) < cardData.length ∧
    mobileCardClick cardData initialState ((1 : Nat) : Int) =
      (initialState, some ((cardData.get ⟨1, by decide⟩).link)) :=
  ⟨by decide, mobile_tap_navigates cardData initialState 1 (by decide)⟩

/-- C5: `handleNavigation` (the selection operation) sets `direction = 1`
(forward) exactly when the target exceeds the pre-update `activeIndex`,
`-1` (backward) exactly when it is below it, `0` (none) exactly when they
are equal, and then sets `activeIndex` to the target. -/
theorem selectNeighbor_direction (s : CarouselState) (t : Int) :
    (handleNavigation s t).activeIndex = t ∧
    ((handleNavigation s t).direction = 1 ↔ s.activeIndex < t) ∧
    ((handleNavigation s t).direction = -1 ↔ t < s.activeIndex) ∧
    ((handleNavigation s t).direction = 0 ↔ t = s.activeIndex) := by
  have hdir : (handleNavigation s t).direction =
      (if t > s.activeIndex then (1 : Int)
       else if t < s.activeIndex then -1 else 0) := rfl
  refine ⟨rfl, ?_, ?_, ?_⟩ <;> rw [hdir] <;> split_ifs with h1 h2
  · exact iff_of_true rfl h1
  · exact iff_of_false (by norm_num) h1
  · exact iff_of_false (by norm_num) h1
  · exact iff_of_false (by norm_num) (by omega)
  · exact iff_of_true rfl h2
  · exact iff_of_false (by norm_num) h2
  · exact iff_of_false (by norm_num) (by omega)
  · exact iff_of_false (by norm_num) (by omega)
  · exact iff_of_true rfl (by omega)

/-- C6: for `activeIndex` in `[0, N)` the neighbor computation returns
`previousIndex = (activeIndex - 1 + N) mod N` and
`nextIndex = (activeIndex + 1) mod N`; both neighbors differ from
`activeIndex` when `N ≥ 3`, both equal `activeIndex` when `N = 1`, and both
equal the single other index when `N = 2`. -/
theorem neighbors_spec (N : Int) (s : CarouselState)
    (hlo : 0 ≤ s.activeIndex) (hhi : s.activeIndex < N) :
    neighbors N s =
      ((s.activeIndex - 1 + N) % N, (s.activeIndex + 1) % N) ∧
    (3 ≤ N → (neighbors N s).1 ≠ s.activeIndex ∧
      (neighbors N s).2 ≠ s.activeIndex) ∧
    (N = 1 → (neighbors N s).1 = s.activeIndex ∧
      (neighbors N s).2 = s.activeIndex) ∧
    (N = 2 → (neighbors N s).1 = 1 - s.activeIndex ∧
      (neighbors N s).2 = 1 - s.activeIndex ∧
      (neighbors N s).1 ≠ s.activeIndex) := by
  have hprev : prevIndex N s = (s.activeIndex - 1 + N) % N :=
    jsMod_eq_emod (by omega) (by omega)
  have hnext : nextIndex N s = (s.activeIndex + 1) % N :=
    jsMod_eq_emod (by omega) (by omega)
  have hb : neighbors N s =
      ((s.activeIndex - 1 + N) % N, (s.activeIndex + 1) % N) := by
    show (prevIndex N s, nextIndex N s) = _
    rw [hprev, hnext]
  refine ⟨hb, ?_, ?_, ?_⟩
  · intro h3
    simp only [hb]
    rw [emod_sub_one_add_eq hlo hhi, emod_add_one_eq hlo hhi]
    split_ifs <;> constructor <;> omega
  · intro h1
    subst h1
    simp only [hb]
    omega
  · intro h2
    subst h2
    simp only [hb]
    refine ⟨?_, ?_, ?_⟩ <;> omega

/-- Witness for C6: the deck of the source (`N = 5`) at `activeIndex = 2`
has neighbors `1` and `3`. -/
theorem neighbors_spec_witness :
    (0 : Int) ≤ 2 ∧ (2 : Int) < 5 ∧
    (neighbors 5 { activeIndex := 2, direction := 0 } =
        (((2 : Int) - 1 + 5) % 5, ((2 : Int) + 1) % 5) ∧
      ((3 : Int) ≤ 5 →
        (neighbors 5 { activeIndex := 2, direction := 0 }).1 ≠ 2 ∧
        (neighbors 5 { activeIndex := 2, direction := 0 }).2 ≠ 2) ∧
      ((5 : Int) = 1 →
        (neighbors 5 { activeIndex := 2, direction := 0 }).1 = 2 ∧
        (neighbors 5 { activeIndex := 2, direction := 0 }).2 = 2) ∧
      ((5 : Int) = 2 →
        (neighbors 5 { activeIndex := 2, direction := 0 }).1 = 1 - 2 ∧
        (neighbors 5 { activeIndex := 2, direction := 0 }).2 = 1 - 2 ∧
        (neighbors 5 { activeIndex := 2, direction := 0 }).1 ≠ 2)) :=
  ⟨by decide, by decide,
   neighbors_spec 5 { activeIndex := 2, direction := 0 } (by decide) (by decide)⟩

/-- C7: from any in-range state and any deck length `N ≥ 1`, `advance()`
then `retreat()` (and `retreat()` then `advance()`) restores the original
`activeIndex`. -/
theorem advance_retreat_inverse (N : Int) (hN : 1 ≤ N) (s : CarouselState)
    (hlo : 0 ≤ s.activeIndex) (hhi : s.activeIndex < N) :
    (goToPrev N (goToNext N s)).activeIndex = s.activeIndex ∧
    (goToNext N (goToPrev N s)).activeIndex = s.activeIndex := by
  have hA : (goToNext N s).activeIndex =
      if s.activeIndex = N - 1 then 0 else s.activeIndex + 1 := by
    have h1 : (goToNext N s).activeIndex = (s.activeIndex + 1) % N :=
      jsMod_eq_emod (by omega) (by omega)
    rw [h1, emod_add_one_eq hlo hhi]
  have hB : (goToPrev N s).activeIndex =
      if s.activeIndex = 0 then N - 1 else s.activeIndex - 1 := by
    have h1 : (goToPrev N s).activeIndex = (s.activeIndex - 1 + N) % N :=
      jsMod_eq_emod (by omega) (by omega)
    rw [h1, emod_sub_one_add_eq hlo hhi]
  have hArange : 0 ≤ (goToNext N s).activeIndex ∧
      (goToNext N s).activeIndex < N := by
    rw [hA]; split_ifs <;> omega
  have hBrange : 0 ≤ (goToPrev N s).activeIndex ∧
      (goToPrev N s).activeIndex < N := by
    rw [hB]; split_ifs <;> omega
  constructor
  · have h2 : (goToPrev N (goToNext N s)).activeIndex =
        ((goToNext N s).activeIndex - 1 + N) % N :=
      jsMod_eq_emod (by omega) (by omega)
    rw [h2, emod_sub_one_add_eq hArange.1 hArange.2, hA]
    split_ifs <;> omega
  · have h2 : (goToNext N (goToPrev N s)).activeIndex =
        ((goToPrev N s).activeIndex + 1) % N :=
      jsMod_eq_emod (by omega) (by omega)
    rw [h2, emod_add_one_eq hBrange.1 hBrange.2, hB]
    split_ifs <;> omega

/-- Witness for C7: `N = 5` from the initial state. -/
theorem advance_retreat_inverse_witness :
    (1 : Int) ≤ 5 ∧ (0 : Int) ≤ 0 ∧ (0 : Int) < 5 ∧
    ((goToPrev 5 (goToNext 5 initialState)).activeIndex = 0 ∧
     (goToNext 5 (goToPrev 5 initialState)).activeIndex = 0) :=
  ⟨by decide, by decide, by decide,
   advance_retreat_inverse 5 (by decide) initialState (by decide) (by decide)⟩

/-- C8: in wide (desktop) mode the renderer mounts precisely the 3-element
card sequence at `[prevIndex, activeIndex, nextIndex]`, for every deck and
every state: the mounted list has length 3 independent of deck size, and an
index is mounted exactly when it is one of the three. -/
theorem desktop_mounts_exactly_three (deck : List CardDataItem)
    (s : CarouselState) :
    desktopMountedCards deck s =
      [cardAt deck (prevIndex (deck.length : Int) s),
       cardAt deck s.activeIndex,
       cardAt deck (nextIndex (deck.length : Int) s)] ∧
    (desktopMountedCards deck s).length = 3 ∧
    (∀ j : Int, j ∈ desktopMountedIndices (deck.length : Int) s ↔
      (j = prevIndex (deck.length : Int) s ∨ j = s.activeIndex ∨
       j = nextIndex (deck.length : Int) s)) := by
  refine ⟨rfl, rfl, ?_⟩
  intro j
  simp [desktopMountedIndices]

/-- C9: for every input state, running `handleSubmit` to completion resets
all three fields to the empty string, leaves `isSubmitting = false`
(submission re-enabled), emits exactly one success notification, and makes
no server request. -/
theorem contact_submit_spec (s : ContactFormState) :
    (handleSubmit s).1.name = "" ∧ (handleSubmit s).1.email = "" ∧
    (handleSubmit s).1.message = "" ∧
    (handleSubmit s).1.isSubmitting = false ∧
    ((handleSubmit s).2.countP FormEffect.isSuccessToast) = 1 ∧
    ((handleSubmit s).2.countP FormEffect.isServerRequest) = 0 :=
  ⟨rfl, rfl, rfl, rfl, rfl, rfl⟩

/-- C10: the cursor widget effect sets `document.body.style.cursor` to
`none` on mount, and its cleanup restores it to `auto` and removes exactly
the listeners the mount added (the handler closures are fresh per effect
run, hence the not-already-registered hypotheses); the document state the
widget touches ends identical to the pre-mount state except for the cursor
property. -/
theorem cursor_effect_scoped (h1 h2 h3 : Nat) (d : DocumentState)
    (hm : (⟨"document", "mousemove", h1⟩ : DocListener) ∉ d.listeners)
    (he : (⟨"body", "mouseenter", h2⟩ : DocListener) ∉ d.listeners)
    (hl : (⟨"body", "mouseleave", h3⟩ : DocListener) ∉ d.listeners) :
    (cursorEffectMount h1 h2 h3 d).cursor = "none" ∧
    cursorEffectCleanup h1 h2 h3 (cursorEffectMount h1 h2 h3 d) =
      { cursor := "auto", listeners := d.listeners } := by
  refine ⟨rfl, ?_⟩
  simp only [cursorEffectMount, cursorEffectCleanup, DocumentState.mk.injEq,
    true_and]
  rw [List.erase_append_right _ hm, List.erase_cons_head,
    List.erase_append_right _ he, List.erase_cons_head,
    List.erase_append_right _ hl, List.erase_cons_head,
    List.append_nil]

/-- Witness for C10: mounting on a fresh document with `cursor = auto` and
no listeners, then cleaning up, restores exactly the original state. -/
theorem cursor_effect_scoped_witness :
    ((⟨"document", "mousemove", 0⟩ : DocListener) ∉ ([] : List DocListener)) ∧
    ((⟨"body", "mouseenter", 1⟩ : DocListener) ∉ ([] : List DocListener)) ∧
    ((⟨"body", "mouseleave", 2⟩ : DocListener) ∉ ([] : List DocListener)) ∧
    ((cursorEffectMount 0 1 2 { cursor := "auto", listeners := [] }).cursor =
        "none" ∧
      cursorEffectCleanup 0 1 2
          (cursorEffectMount 0 1 2 { cursor := "auto", listeners := [] }) =
        { cursor := "auto", listeners := [] }) :=
  ⟨by simp, by simp, by simp,
   cursor_effect_scoped 0 1 2 { cursor := "auto", listeners := [] }
     (by simp) (by simp) (by simp)⟩
